import Mathlib

/-!
Shallow embedding of the ray tracer in `src/src` (the same code appears
verbatim in `src/src/main.rs` and in `src/src/engine/...`; we model the one
logical implementation).

Modelling conventions:
* Rust `f32` scalars are modelled as exact rationals `ℚ`; arithmetic on them
  (`+`, `-`, `*`, `/`, comparisons, `clamp`, `max`) is the exact rational
  counterpart of the source expression.  Division by zero follows the Lean
  convention `x / 0 = 0`.
* The transcendental `f32` primitives used by the source (`sqrt`, `tan`,
  `to_radians`) have no exact rational counterpart, so every definition is
  parametrised by a record `FloatOps` carrying those three functions; the
  theorems hold for an arbitrary instantiation unless a property of the
  primitive is needed, in which case it appears as an explicit hypothesis.
* `x as u8` (float to byte, truncating toward zero and saturating to
  `[0, 255]`) is modelled by `to_u8`.
* The trait object list `Vec<Box<&dyn Intersectable>>` is modelled by a list
  over the closed sum of the two implementors, `Sphere` and `Plane`.
-/

namespace Raytracer

/-- The transcendental `f32` primitives the source calls, kept abstract. -/
structure FloatOps where
  sqrt : ℚ → ℚ
  tan : ℚ → ℚ
  to_radians : ℚ → ℚ

/-- A concrete instantiation of the primitives, used to evaluate the
definitions at sample inputs (any instantiation works for the structural
theorems). -/
def opsLin : FloatOps := { sqrt := fun q => q, tan := fun q => q, to_radians := fun q => q }

/-- `nalgebra::Vector3<f32>` as used by the source. -/
structure Vector3 where
  x : ℚ
  y : ℚ
  z : ℚ
deriving DecidableEq, Repr

def Vector3.add (a b : Vector3) : Vector3 := ⟨a.x + b.x, a.y + b.y, a.z + b.z⟩

def Vector3.sub (a b : Vector3) : Vector3 := ⟨a.x - b.x, a.y - b.y, a.z - b.z⟩

/-- Scalar multiplication `v * q` / `q * v`. -/
def Vector3.smul (q : ℚ) (v : Vector3) : Vector3 := ⟨q * v.x, q * v.y, q * v.z⟩

def Vector3.dot (a b : Vector3) : ℚ := a.x * b.x + a.y * b.y + a.z * b.z

def Vector3.cross (a b : Vector3) : Vector3 :=
  ⟨a.y * b.z - a.z * b.y, a.z * b.x - a.x * b.z, a.x * b.y - a.y * b.x⟩

/-- `nalgebra` `normalize`: the vector divided by its euclidean norm
`sqrt (v ⬝ v)`. -/
def Vector3.normalize (ops : FloatOps) (v : Vector3) : Vector3 :=
  let n := ops.sqrt (v.dot v)
  ⟨v.x / n, v.y / n, v.z / n⟩

/-- `struct Ray` from `types.rs`. -/
structure Ray where
  origin : Vector3
  direction : Vector3
deriving DecidableEq, Repr

/-- `struct Sphere` from `types.rs`. -/
structure Sphere where
  center : Vector3
  radius : ℚ
  color : ℚ × ℚ × ℚ
  reflectivity : ℚ
deriving DecidableEq, Repr

/-- `struct Plane` from `types.rs`. -/
structure Plane where
  point : Vector3
  normal : Vector3
  color : ℚ × ℚ × ℚ
  reflectivity : ℚ
deriving DecidableEq, Repr

/-- The closed sum of the implementors of the `Intersectable` trait. -/
inductive Intersectable where
  | sphere (s : Sphere)
  | plane (p : Plane)
deriving DecidableEq, Repr

/-- `struct Intersection` from `types.rs` (the `object` reference is modelled
by value, the primitives being immutable). -/
structure Intersection where
  point : Vector3
  normal : Vector3
  distance : ℚ
  object : Intersectable
deriving DecidableEq, Repr

/-- `struct LightSource` from `types.rs`. -/
structure LightSource where
  origin : Vector3
  intensity : ℚ × ℚ × ℚ
  color : ℚ × ℚ × ℚ
deriving DecidableEq, Repr

/-- Discriminant `b*b - 4*a*c` computed by `Sphere::intersect`. -/
def Sphere.disc (s : Sphere) (ray : Ray) : ℚ :=
  let oc := ray.origin.sub s.center
  let a := ray.direction.dot ray.direction
  let b := 2 * oc.dot ray.direction
  let c := oc.dot oc - s.radius * s.radius
  b * b - 4 * a * c

/-- The smaller quadratic root `(-b - sqrt disc) / (2a)` of `Sphere::intersect`. -/
def Sphere.root1 (ops : FloatOps) (s : Sphere) (ray : Ray) : ℚ :=
  let oc := ray.origin.sub s.center
  let a := ray.direction.dot ray.direction
  let b := 2 * oc.dot ray.direction
  (-b - ops.sqrt (s.disc ray)) / (2 * a)

/-- The larger quadratic root `(-b + sqrt disc) / (2a)` of `Sphere::intersect`. -/
def Sphere.root2 (ops : FloatOps) (s : Sphere) (ray : Ray) : ℚ :=
  let oc := ray.origin.sub s.center
  let a := ray.direction.dot ray.direction
  let b := 2 * oc.dot ray.direction
  (-b + ops.sqrt (s.disc ray)) / (2 * a)

/-- The hit record `Sphere::intersect` builds for parameter `t`. -/
def Sphere.hit_at (ops : FloatOps) (s : Sphere) (ray : Ray) (t : ℚ) : Intersection :=
  let point := ray.origin.add (Vector3.smul t ray.direction)
  { point := point
    normal := Vector3.normalize ops (point.sub s.center)
    distance := t
    object := Intersectable.sphere s }

/-- `impl Intersectable for Sphere`, `fn intersect` (`traits.rs`, lines 19-53). -/
def Sphere.intersect (ops : FloatOps) (s : Sphere) (ray : Ray) : Option Intersection :=
  if s.disc ray < 0 then none
  else
    let t1 := s.root1 ops ray
    let t2 := s.root2 ops ray
    if t1 ≥ 0 then some (s.hit_at ops ray t1)
    else if t2 ≥ 0 then some (s.hit_at ops ray t2)
    else none

/-- Denominator `ray.direction ⬝ plane.normal` of `Plane::intersect`. -/
def Plane.denom (p : Plane) (ray : Ray) : ℚ := ray.direction.dot p.normal

/-- Parameter `t = (p0 - origin) ⬝ n / denom` of `Plane::intersect`. -/
def Plane.tval (p : Plane) (ray : Ray) : ℚ :=
  ((p.point.sub ray.origin).dot p.normal) / p.denom ray

/-- `impl Intersectable for Plane`, `fn intersect` (`traits.rs`, lines 64-91). -/
def Plane.intersect (p : Plane) (ray : Ray) : Option Intersection :=
  if |p.denom ray| < 1 / 1000000 then none
  else
    let t := p.tval ray
    if t < 0 then none
    else
      some { point := ray.origin.add (Vector3.smul t ray.direction)
             normal := p.normal
             distance := t
             object := Intersectable.plane p }

/-- Dynamic dispatch of the trait method `intersect`. -/
def Intersectable.intersect (ops : FloatOps) : Intersectable → Ray → Option Intersection
  | .sphere s, ray => s.intersect ops ray
  | .plane p, ray => p.intersect ray

/-- Dynamic dispatch of the trait method `get_color`. -/
def Intersectable.get_color : Intersectable → ℚ × ℚ × ℚ
  | .sphere s => s.color
  | .plane p => p.color

/-- Dynamic dispatch of the trait method `reflectivity`. -/
def Intersectable.refl_of : Intersectable → ℚ
  | .sphere s => s.reflectivity
  | .plane p => p.reflectivity

/-- `struct Camera` from `camera.rs` (field order as in the source). -/
structure Camera where
  origin : Vector3
  forward : Vector3
  right : Vector3
  up : Vector3
  distance : ℚ
  height : ℕ
  width : ℕ
  fov : ℚ
deriving DecidableEq, Repr

/-- `Camera::new` (`camera.rs`, lines 19-43): derives the basis and always
returns a camera; the function has no failure path. -/
def Camera.new (ops : FloatOps) (origin look_at up_hint : Vector3) (distance : ℚ)
    (height width : ℕ) (fov : ℚ) : Camera :=
  let forward := Vector3.normalize ops (look_at.sub origin)
  let right := Vector3.normalize ops (forward.cross up_hint)
  let up := Vector3.normalize ops (right.cross forward)
  { origin := origin, forward := forward, right := right, up := up
    distance := distance, height := height, width := width, fov := fov }

/-- `width as f32 / height as f32` from `generate_rays`. -/
def Camera.aspect (c : Camera) : ℚ := (c.width : ℚ) / (c.height : ℚ)

/-- `image_plane_height = 2 * tan(fov_rad / 2) * distance` from `generate_rays`. -/
def Camera.image_plane_height (ops : FloatOps) (c : Camera) : ℚ :=
  2 * ops.tan (ops.to_radians c.fov / 2) * c.distance

/-- `image_plane_width = image_plane_height * aspect_ratio` from `generate_rays`. -/
def Camera.image_plane_width (ops : FloatOps) (c : Camera) : ℚ :=
  c.image_plane_height ops * c.aspect

/-- Signed screen-space x offset of pixel column `i` (`generate_rays`). -/
def Camera.pixel_screen_x (ops : FloatOps) (c : Camera) (i : ℕ) : ℚ :=
  (2 * (((i : ℚ) + 1/2) / (c.width : ℚ)) - 1) * c.image_plane_width ops / 2

/-- Signed screen-space y offset of pixel row `j` (`generate_rays`). -/
def Camera.pixel_screen_y (ops : FloatOps) (c : Camera) (j : ℕ) : ℚ :=
  (1 - 2 * (((j : ℚ) + 1/2) / (c.height : ℚ))) * c.image_plane_height ops / 2

/-- The point on the image plane for pixel `(i, j)` (`generate_rays`):
`origin + forward*distance + right*screen_x + up*screen_y`. -/
def Camera.pixel_position (ops : FloatOps) (c : Camera) (i j : ℕ) : Vector3 :=
  ((c.origin.add (Vector3.smul c.distance c.forward)).add
      (Vector3.smul (c.pixel_screen_x ops i) c.right)).add
    (Vector3.smul (c.pixel_screen_y ops j) c.up)

/-- The ray pushed for pixel `(i, j)` by `generate_rays`. -/
def Camera.pixel_ray (ops : FloatOps) (c : Camera) (i j : ℕ) : Ray :=
  { origin := c.origin
    direction := Vector3.normalize ops ((c.pixel_position ops i j).sub c.origin) }

/-- `Camera::generate_rays` (`camera.rs`, lines 47-89): row `j` outer,
column `i` inner. -/
def Camera.generate_rays (ops : FloatOps) (c : Camera) : List Ray :=
  (List.range c.height).flatMap fun j =>
    (List.range c.width).map fun i => c.pixel_ray ops i j

/-- `f32::MAX`, the initial value of `min_dist` in `trace_ray`. -/
def f32MAX : ℚ := (2 ^ 24 - 1) * 2 ^ 104

/-- One iteration of the closest-hit fold of `trace_ray` (`camera.rs`,
lines 102-112): the accumulator is the pair of mutables `(closest, min_dist)`. -/
def closest_step (ops : FloatOps) (ray : Ray) (acc : Option Intersection × ℚ)
    (obj : Intersectable) : Option Intersection × ℚ :=
  match obj.intersect ops ray with
  | some hit => if hit.distance < acc.2 then (some hit, hit.distance) else acc
  | none => acc

/-- The closest-hit fold of `trace_ray`, starting from
`(None, f32::MAX)`. -/
def closest_loop (ops : FloatOps) (objects : List Intersectable) (ray : Ray) :
    Option Intersection × ℚ :=
  objects.foldl (closest_step ops ray) (none, f32MAX)

/-- The value of `closest` after the first loop of `trace_ray`. -/
def closest_hit (ops : FloatOps) (objects : List Intersectable) (ray : Ray) :
    Option Intersection :=
  (closest_loop ops objects ray).1

/-- The light source constructed inside `trace_ray` (`camera.rs`, lines 115-119). -/
def the_light : LightSource :=
  { origin := ⟨-5, 5, 5⟩, intensity := (255, 255, 255), color := (255, 0, 100) }

/-- `light_dir = normalize(light.origin - hit.point)` from `trace_ray`. -/
def light_dir (ops : FloatOps) (hit : Intersection) : Vector3 :=
  Vector3.normalize ops (the_light.origin.sub hit.point)

/-- `f32::clamp(self, lo, hi)`. -/
def qclamp (x lo hi : ℚ) : ℚ := max lo (min x hi)

/-- `product = normal.dot(light_dir).max(0.0)` from `trace_ray`. -/
def diffuse_product (ops : FloatOps) (hit : Intersection) : ℚ :=
  max (hit.normal.dot (light_dir ops hit)) 0

/-- The `intensity` triple of `trace_ray` before the shadow loop
(`camera.rs`, lines 125-127). -/
def base_intensity (ops : FloatOps) (hit : Intersection) : ℚ × ℚ × ℚ :=
  let p := diffuse_product ops hit
  (qclamp (the_light.intensity.1 / 255 * p) 0 1,
   qclamp (the_light.intensity.2.1 / 255 * p) 0 1,
   qclamp (the_light.intensity.2.2 / 255 * p) 0 1)

/-- The `light_color` triple of `trace_ray` (`camera.rs`, lines 129-132). -/
def light_color_v : ℚ × ℚ × ℚ :=
  (qclamp (the_light.color.1 / 255) 0 1,
   qclamp (the_light.color.2.1 / 255) 0 1,
   qclamp (the_light.color.2.2 / 255) 0 1)

/-- The shadow ray of `trace_ray`: origin `hit.point + normal * 1e-3`,
direction toward the light. -/
def shadow_ray (ops : FloatOps) (hit : Intersection) : Ray :=
  { origin := hit.point.add (Vector3.smul (1/1000) hit.normal)
    direction := light_dir ops hit }

/-- The shadow loop of `trace_ray` (`camera.rs`, lines 142-149): scans the
objects in order and zeroes `intensity`, breaking, at the first object whose
intersection with the shadow ray lies at distance greater than `1e-3`. -/
def shadow_loop (ops : FloatOps) (sray : Ray) (intensity : ℚ × ℚ × ℚ) :
    List Intersectable → ℚ × ℚ × ℚ
  | [] => intensity
  | obj :: rest =>
    match obj.intersect ops sray with
    | some sh =>
      if sh.distance > 1/1000 then (0, 0, 0) else shadow_loop ops sray intensity rest
    | none => shadow_loop ops sray intensity rest

/-- The `intensity` triple after the shadow loop of `trace_ray`. -/
def final_intensity (ops : FloatOps) (objects : List Intersectable)
    (hit : Intersection) : ℚ × ℚ × ℚ :=
  shadow_loop ops (shadow_ray ops hit) (base_intensity ops hit) objects

/-- Rust `x as u8` on an (exactly represented) float: truncate toward zero
and saturate into `[0, 255]`. -/
def to_u8 (x : ℚ) : ℕ := min 255 (Int.toNat ⌊x⌋)

/-- The 8-bit `local_color` of `trace_ray` (`camera.rs`, lines 151-161):
base color scaled by intensity, clamped, multiplied by the clamped light
color, scaled back by 255 and cast to `u8`. -/
def local_color (ops : FloatOps) (objects : List Intersectable)
    (hit : Intersection) : ℕ × ℕ × ℕ :=
  let base := hit.object.get_color
  let inten := final_intensity ops objects hit
  let lc := (qclamp (base.1 / 255 * inten.1) 0 1,
             qclamp (base.2.1 / 255 * inten.2.1) 0 1,
             qclamp (base.2.2 / 255 * inten.2.2) 0 1)
  (to_u8 (qclamp lc.1 0 1 * qclamp light_color_v.1 0 1 * 255),
   to_u8 (qclamp lc.2.1 0 1 * qclamp light_color_v.2.1 0 1 * 255),
   to_u8 (qclamp lc.2.2 0 1 * qclamp light_color_v.2.2 0 1 * 255))

/-- `Camera::reflect` (`camera.rs`, lines 250-257): the method reads no
camera state. -/
def reflect (incident normal : Vector3) : Vector3 :=
  incident.sub (Vector3.smul (2 * incident.dot normal) normal)

/-- The reflected ray cast by `trace_ray` (`camera.rs`, lines 166-173). -/
def reflected_ray (ops : FloatOps) (ray : Ray) (hit : Intersection) : Ray :=
  { origin := hit.point.add (Vector3.smul (1/1000) hit.normal)
    direction := Vector3.normalize ops (reflect ray.direction hit.normal) }

/-- The per-channel blend `local*(1-r) + reflected*r` cast to `u8`
(`camera.rs`, lines 179-186). -/
def blend (r : ℚ) (lc rc : ℕ × ℕ × ℕ) : ℕ × ℕ × ℕ :=
  (to_u8 ((lc.1 : ℚ) * (1 - r) + (rc.1 : ℚ) * r),
   to_u8 ((lc.2.1 : ℚ) * (1 - r) + (rc.2.1 : ℚ) * r),
   to_u8 ((lc.2.2 : ℚ) * (1 - r) + (rc.2.2 : ℚ) * r))

/-- `Camera::trace_ray` (`camera.rs`, lines 91-193).  The method reads no
camera state (it only calls `self.reflect`, which does not either), so it is
modelled as a function of the ray, the object list and the depth.  The Rust
`depth: u32` with an immediate `depth == 0` return and recursion at
`depth - 1` is rendered as structural recursion on `ℕ`. -/
def trace_ray (ops : FloatOps) (objects : List Intersectable) :
    Ray → ℕ → ℕ × ℕ × ℕ
  | _, 0 => (0, 0, 0)
  | ray, depth + 1 =>
    match closest_hit ops objects ray with
    | none => (0, 0, 0)
    | some hit =>
      let lc := local_color ops objects hit
      let r := hit.object.refl_of
      if r > 0 then
        blend r lc (trace_ray ops objects (reflected_ray ops ray hit) depth)
      else lc

/-- Fuel-instrumented variant of `trace_ray`: each procedure activation
consumes one unit of fuel, and exhausted fuel (a computation that would not
have returned yet) is `none`.  Used to state the termination bound. -/
def trace_ray_fuel (ops : FloatOps) (objects : List Intersectable) :
    ℕ → Ray → ℕ → Option (ℕ × ℕ × ℕ)
  | 0, _, _ => none
  | fuel + 1, ray, depth =>
    if depth = 0 then some (0, 0, 0)
    else
      match closest_hit ops objects ray with
      | none => some (0, 0, 0)
      | some hit =>
        let lc := local_color ops objects hit
        let r := hit.object.refl_of
        if r > 0 then
          match trace_ray_fuel ops objects fuel (reflected_ray ops ray hit) (depth - 1) with
          | none => none
          | some rc => some (blend r lc rc)
        else some lc

/-! Concrete sample data used by the witness theorems (spheres and planes
taken from, or shaped like, the scene in `main.rs`). -/

/-- The first sphere of the scene in `main.rs`. -/
def wSphere : Sphere :=
  { center := ⟨0, 0, -5⟩, radius := 1, color := (200, 200, 200), reflectivity := 1 }

/-- A ray from the world origin straight at `wSphere`. -/
def wRayHit : Ray := { origin := ⟨0, 0, 0⟩, direction := ⟨0, 0, -1⟩ }

/-- A ray from the world origin that misses `wSphere`. -/
def wRayMiss : Ray := { origin := ⟨0, 0, 0⟩, direction := ⟨0, 1, 0⟩ }

/-- The ground plane of the scene in `main.rs` (at `y = 0` here). -/
def wGround : Plane :=
  { point := ⟨0, 0, 0⟩, normal := ⟨0, 1, 0⟩, color := (0, 0, 255), reflectivity := 0 }

/-- The ground plane with reflectivity `1/2`. -/
def wGroundR : Plane :=
  { point := ⟨0, 0, 0⟩, normal := ⟨0, 1, 0⟩, color := (0, 0, 255), reflectivity := 1/2 }

/-- A vertical wall at `x = -1`, parallel to `wRayDown` but crossing the
path from the ground hit point to the light. -/
def wWall : Plane :=
  { point := ⟨-1, 0, 0⟩, normal := ⟨1, 0, 0⟩, color := (9, 9, 9), reflectivity := 0 }

/-- A ray dropping straight down onto the ground plane. -/
def wRayDown : Ray := { origin := ⟨0, 5, 0⟩, direction := ⟨0, -1, 0⟩ }

/-- The hit record `wGround.intersect wRayDown` produces. -/
def wGroundHit : Intersection :=
  { point := ⟨0, 0, 0⟩, normal := ⟨0, 1, 0⟩, distance := 5,
    object := Intersectable.plane wGround }

/-- The hit record `wGroundR.intersect wRayDown` produces. -/
def wGroundHitR : Intersection :=
  { point := ⟨0, 0, 0⟩, normal := ⟨0, 1, 0⟩, distance := 5,
    object := Intersectable.plane wGroundR }

/-- The hit record `wWall.intersect` produces on the shadow ray out of
`wGroundHit` (under `opsLin`). -/
def wWallShadowHit : Intersection :=
  { point := ⟨-1, 1001/1000, 1⟩, normal := ⟨1, 0, 0⟩, distance := 15,
    object := Intersectable.plane wWall }

/-! ## Theorems for the claims -/

/-- Claim C1: for every ray and sphere (and any value of the abstract `sqrt`
primitive), `Sphere::intersect` returns `none` when the discriminant
`b^2 - 4ac` is negative; otherwise it returns a hit at `t = root1 =
(-b - sqrt disc) / (2a)` if `root1 ≥ 0`, else at `root2` if `root2 ≥ 0`,
else `none`; the returned intersection has `point = origin + t * direction`,
`distance = t` and `normal = normalize (point - center)`. -/
theorem sphere_intersect_spec (ops : FloatOps) (s : Sphere) (ray : Ray) :
    (s.disc ray < 0 → s.intersect ops ray = none) ∧
    (0 ≤ s.disc ray → 0 ≤ s.root1 ops ray →
      ∃ i, s.intersect ops ray = some i ∧
        i.distance = s.root1 ops ray ∧
        i.point = ray.origin.add (Vector3.smul (s.root1 ops ray) ray.direction) ∧
        i.normal = Vector3.normalize ops (i.point.sub s.center) ∧
        i.object = Intersectable.sphere s) ∧
    (0 ≤ s.disc ray → s.root1 ops ray < 0 → 0 ≤ s.root2 ops ray →
      ∃ i, s.intersect ops ray = some i ∧
        i.distance = s.root2 ops ray ∧
        i.point = ray.origin.add (Vector3.smul (s.root2 ops ray) ray.direction) ∧
        i.normal = Vector3.normalize ops (i.point.sub s.center) ∧
        i.object = Intersectable.sphere s) ∧
    (0 ≤ s.disc ray → s.root1 ops ray < 0 → s.root2 ops ray < 0 →
      s.intersect ops ray = none) := by
  refine ⟨fun h1 => ?_, fun h1 h2 => ?_, fun h1 h2 h3 => ?_, fun h1 h2 h3 => ?_⟩
  · simp [Sphere.intersect, h1]
  · refine ⟨s.hit_at ops ray (s.root1 ops ray), ?_, by simp [Sphere.hit_at],
      by simp [Sphere.hit_at], by simp [Sphere.hit_at], by simp [Sphere.hit_at]⟩
    simp [Sphere.intersect, not_lt.mpr h1, h2]
  · refine ⟨s.hit_at ops ray (s.root2 ops ray), ?_, by simp [Sphere.hit_at],
      by simp [Sphere.hit_at], by simp [Sphere.hit_at], by simp [Sphere.hit_at]⟩
    simp [Sphere.intersect, not_lt.mpr h1, not_le.mpr h2, h3]
  · simp [Sphere.intersect, not_lt.mpr h1, not_le.mpr h2, not_le.mpr h3]

/-- Witness for C1: on the scene sphere of `main.rs` and a ray aimed
straight at it, the second branch applies (disc `= 4 ≥ 0`, `root1 ≥ 0`). -/
theorem sphere_intersect_spec_witness :
    ∃ i, Sphere.intersect opsLin wSphere wRayHit = some i ∧
      i.distance = Sphere.root1 opsLin wSphere wRayHit ∧
      i.point = wRayHit.origin.add
        (Vector3.smul (Sphere.root1 opsLin wSphere wRayHit) wRayHit.direction) ∧
      i.normal = Vector3.normalize opsLin (i.point.sub wSphere.center) ∧
      i.object = Intersectable.sphere wSphere :=
  (sphere_intersect_spec opsLin wSphere wRayHit).2.1
    (by norm_num [Sphere.disc, Vector3.dot, Vector3.sub, wSphere, wRayHit])
    (by norm_num [Sphere.root1, Sphere.disc, opsLin, Vector3.dot, Vector3.sub,
      wSphere, wRayHit])

/-- Claim C6: for every ray and plane, `Plane::intersect` returns `none`
(an ordinary empty `Option`, not a propagated failure) when
`|direction ⬝ normal| < 1e-6` and when `t = (p0 - origin) ⬝ n / denom` is
negative; otherwise it returns a hit at distance `t` carrying the fixed,
unflipped plane normal. -/
theorem plane_intersect_spec (p : Plane) (ray : Ray) :
    (|p.denom ray| < 1/1000000 → p.intersect ray = none) ∧
    (1/1000000 ≤ |p.denom ray| → p.tval ray < 0 → p.intersect ray = none) ∧
    (1/1000000 ≤ |p.denom ray| → 0 ≤ p.tval ray →
      p.intersect ray = some
        { point := ray.origin.add (Vector3.smul (p.tval ray) ray.direction)
          normal := p.normal
          distance := p.tval ray
          object := Intersectable.plane p }) := by
  refine ⟨fun h1 => ?_, fun h1 h2 => ?_, fun h1 h2 => ?_⟩
  · simp only [Plane.intersect]
    rw [if_pos h1]
  · simp only [Plane.intersect]
    rw [if_neg (not_lt.mpr h1), if_pos h2]
  · simp only [Plane.intersect]
    rw [if_neg (not_lt.mpr h1), if_neg (not_lt.mpr h2)]

/-- Witness for C6: a ray running parallel to (and above) the ground plane
falls in the `|denom| < 1e-6` branch, and a downward ray falls in the hit
branch. -/
theorem plane_intersect_spec_witness :
    Plane.intersect wGround { origin := ⟨0, 5, 0⟩, direction := ⟨1, 0, 0⟩ } = none ∧
    Plane.intersect wGround wRayDown = some
      { point := wRayDown.origin.add (Vector3.smul (wGround.tval wRayDown) wRayDown.direction)
        normal := wGround.normal
        distance := wGround.tval wRayDown
        object := Intersectable.plane wGround } :=
  ⟨(plane_intersect_spec wGround _).1
      (by norm_num [Plane.denom, Vector3.dot, wGround]),
   (plane_intersect_spec wGround wRayDown).2.2
      (by norm_num [Plane.denom, Vector3.dot, wGround, wRayDown])
      (by norm_num [Plane.tval, Plane.denom, Vector3.dot, Vector3.sub, wGround, wRayDown])⟩

/-- Helper: the closest-hit fold leaves the accumulator untouched when no
object intersects the ray. -/
theorem closest_loop_of_miss (ops : FloatOps) (ray : Ray) :
    ∀ (objects : List Intersectable) (acc : Option Intersection × ℚ),
      (∀ obj ∈ objects, obj.intersect ops ray = none) →
      objects.foldl (closest_step ops ray) acc = acc
  | [], _, _ => rfl
  | obj :: rest, acc, h => by
    have h1 : obj.intersect ops ray = none := h obj (List.mem_cons_self obj rest)
    have h2 : closest_step ops ray acc obj = acc := by
      simp [closest_step, h1]
    rw [List.foldl_cons, h2]
    exact closest_loop_of_miss ops ray rest acc fun o ho => h o (List.mem_cons_of_mem _ ho)

/-- Helper: `closest` stays `None` when every object misses. -/
theorem closest_hit_of_miss (ops : FloatOps) (objects : List Intersectable) (ray : Ray)
    (h : ∀ obj ∈ objects, obj.intersect ops ray = none) :
    closest_hit ops objects ray = none := by
  unfold closest_hit closest_loop
  rw [closest_loop_of_miss ops ray objects _ h]

/-- Claim C2: `trace_ray` returns exactly `(0,0,0)` when `depth == 0`, and,
at every depth, when no object of the list intersects the ray. -/
theorem trace_ray_black (ops : FloatOps) (objects : List Intersectable) (ray : Ray) :
    trace_ray ops objects ray 0 = (0, 0, 0) ∧
    (∀ depth : ℕ, (∀ obj ∈ objects, obj.intersect ops ray = none) →
      trace_ray ops objects ray depth = (0, 0, 0)) := by
  refine ⟨rfl, fun depth h => ?_⟩
  cases depth with
  | zero => rfl
  | succ d =>
    simp only [trace_ray, closest_hit_of_miss ops objects ray h]

/-- Witness for C2: the scene sphere of `main.rs` and a ray that misses it,
at depth 3. -/
theorem trace_ray_black_witness :
    trace_ray opsLin [Intersectable.sphere wSphere] wRayMiss 3 = (0, 0, 0) :=
  (trace_ray_black opsLin [Intersectable.sphere wSphere] wRayMiss).2 3 (by
    intro obj hm
    rw [List.mem_singleton] at hm
    subst hm
    norm_num [Intersectable.intersect, Sphere.intersect, Sphere.disc,
      Vector3.dot, Vector3.sub, wSphere, wRayMiss])

/-- Helper: the hit branch of `Plane::intersect`, stated with explicit
side conditions so concrete instances evaluate easily. -/
theorem plane_hit_eval (p : Plane) (ray : Ray)
    (h1 : ¬ (|p.denom ray| < 1/1000000)) (h2 : ¬ (p.tval ray < 0)) :
    p.intersect ray = some
      { point := ray.origin.add (Vector3.smul (p.tval ray) ray.direction)
        normal := p.normal
        distance := p.tval ray
        object := Intersectable.plane p } := by
  simp only [Plane.intersect]
  rw [if_neg h1, if_neg h2]

/-- Helper: the parallel branch of `Plane::intersect`. -/
theorem plane_par_eval (p : Plane) (ray : Ray)
    (h1 : |p.denom ray| < 1/1000000) : p.intersect ray = none := by
  simp only [Plane.intersect]
  rw [if_pos h1]

/-- Evaluation: the ground plane under the vertical ray. -/
theorem eval_ground_down :
    Intersectable.intersect opsLin (.plane wGround) wRayDown = some wGroundHit := by
  have h1 : ¬ (|Plane.denom wGround wRayDown| < 1/1000000) := by
    rw [show Plane.denom wGround wRayDown = -1 by
      norm_num [Plane.denom, Vector3.dot, wGround, wRayDown]]
    rw [abs_lt]
    norm_num
  have h2 : Plane.tval wGround wRayDown = 5 := by
    norm_num [Plane.tval, Plane.denom, Vector3.dot, Vector3.sub, wGround, wRayDown]
  rw [Intersectable.intersect, plane_hit_eval wGround wRayDown h1 (by rw [h2]; norm_num)]
  rw [h2]
  norm_num [Vector3.add, Vector3.smul, wGround, wRayDown, wGroundHit]

/-- Evaluation: the half-reflective ground plane under the vertical ray. -/
theorem eval_groundR_down :
    Intersectable.intersect opsLin (.plane wGroundR) wRayDown = some wGroundHitR := by
  have h1 : ¬ (|Plane.denom wGroundR wRayDown| < 1/1000000) := by
    rw [show Plane.denom wGroundR wRayDown = -1 by
      norm_num [Plane.denom, Vector3.dot, wGroundR, wRayDown]]
    rw [abs_lt]
    norm_num
  have h2 : Plane.tval wGroundR wRayDown = 5 := by
    norm_num [Plane.tval, Plane.denom, Vector3.dot, Vector3.sub, wGroundR, wRayDown]
  rw [Intersectable.intersect, plane_hit_eval wGroundR wRayDown h1 (by rw [h2]; norm_num)]
  rw [h2]
  norm_num [Vector3.add, Vector3.smul, wGroundR, wRayDown, wGroundHitR]

/-- Evaluation: the wall is parallel to the vertical ray. -/
theorem eval_wall_down :
    Intersectable.intersect opsLin (.plane wWall) wRayDown = none := by
  rw [Intersectable.intersect]
  exact plane_par_eval wWall wRayDown (by
    rw [show Plane.denom wWall wRayDown = 0 by
      norm_num [Plane.denom, Vector3.dot, wWall, wRayDown]]
    norm_num)

/-- Evaluation: the shadow ray out of the ground hit point, under `opsLin`. -/
theorem eval_shadow_ray :
    shadow_ray opsLin wGroundHit =
      { origin := ⟨0, 1/1000, 0⟩, direction := ⟨-1/15, 1/15, 1/15⟩ } := by
  norm_num [shadow_ray, light_dir, the_light, Vector3.normalize, Vector3.dot,
    Vector3.sub, Vector3.add, Vector3.smul, opsLin, wGroundHit]

/-- Evaluation: the ground plane does not shadow its own hit point (the
shadow ray leaves it behind, `t < 0`). -/
theorem eval_ground_shadow :
    Intersectable.intersect opsLin (.plane wGround) (shadow_ray opsLin wGroundHit) = none := by
  rw [Intersectable.intersect, eval_shadow_ray]
  simp only [Plane.intersect]
  rw [if_neg, if_pos]
  · rw [show Plane.tval wGround { origin := ⟨0, 1/1000, 0⟩, direction := ⟨-1/15, 1/15, 1/15⟩ }
        = -3/200 by
      norm_num [Plane.tval, Plane.denom, Vector3.dot, Vector3.sub, wGround]]
    norm_num
  · rw [show Plane.denom wGround { origin := ⟨0, 1/1000, 0⟩, direction := ⟨-1/15, 1/15, 1/15⟩ }
        = 1/15 by
      norm_num [Plane.denom, Vector3.dot, wGround]]
    rw [abs_lt]
    norm_num

/-- Evaluation: the wall occludes the shadow ray at distance 15. -/
theorem eval_wall_shadow :
    Intersectable.intersect opsLin (.plane wWall) (shadow_ray opsLin wGroundHit) =
      some wWallShadowHit := by
  rw [Intersectable.intersect, eval_shadow_ray]
  have h1 : ¬ (|Plane.denom wWall { origin := ⟨0, 1/1000, 0⟩, direction := ⟨-1/15, 1/15, 1/15⟩ }|
      < 1/1000000) := by
    rw [show Plane.denom wWall { origin := ⟨0, 1/1000, 0⟩, direction := ⟨-1/15, 1/15, 1/15⟩ }
        = -1/15 by
      norm_num [Plane.denom, Vector3.dot, wWall]]
    rw [abs_lt]
    norm_num
  have h2 : Plane.tval wWall { origin := ⟨0, 1/1000, 0⟩, direction := ⟨-1/15, 1/15, 1/15⟩ }
      = 15 := by
    norm_num [Plane.tval, Plane.denom, Vector3.dot, Vector3.sub, wWall]
  rw [plane_hit_eval wWall _ h1 (by rw [h2]; norm_num), h2]
  norm_num [Vector3.add, Vector3.smul, wWall, wWallShadowHit]

/-- Evaluation: the closest hit of the one-ground scene. -/
theorem eval_closest_ground :
    closest_hit opsLin [.plane wGround] wRayDown = some wGroundHit := by
  simp only [closest_hit, closest_loop, List.foldl_cons, List.foldl_nil,
    closest_step, eval_ground_down]
  rw [if_pos (by norm_num [wGroundHit, f32MAX])]

/-- Evaluation: the closest hit of the half-reflective one-ground scene. -/
theorem eval_closest_groundR :
    closest_hit opsLin [.plane wGroundR] wRayDown = some wGroundHitR := by
  simp only [closest_hit, closest_loop, List.foldl_cons, List.foldl_nil,
    closest_step, eval_groundR_down]
  rw [if_pos (by norm_num [wGroundHitR, f32MAX])]

/-- Evaluation: the closest hit of the ground-and-wall scene. -/
theorem eval_closest_ground_wall :
    closest_hit opsLin [.plane wGround, .plane wWall] wRayDown = some wGroundHit := by
  simp only [closest_hit, closest_loop, List.foldl_cons, List.foldl_nil,
    closest_step, eval_ground_down, eval_wall_down]
  rw [if_pos (by norm_num [wGroundHit, f32MAX])]

/-- Helper: the shadow loop returns `(0,0,0)` as soon as some object of the
list intersects the shadow ray at distance greater than `1e-3`. -/
theorem shadow_loop_of_occluder (ops : FloatOps) (sray : Ray) (intensity : ℚ × ℚ × ℚ) :
    ∀ objects : List Intersectable,
      (∃ obj ∈ objects, ∃ sh, obj.intersect ops sray = some sh ∧ sh.distance > 1/1000) →
      shadow_loop ops sray intensity objects = (0, 0, 0)
  | [], h => absurd h (by simp)
  | obj :: rest, h => by
    rcases h with ⟨o, ho, sh, hsh, hd⟩
    rcases List.mem_cons.mp ho with rfl | ho2
    · simp only [shadow_loop, hsh]
      rw [if_pos hd]
    · have ih := shadow_loop_of_occluder ops sray intensity rest ⟨o, ho2, sh, hsh, hd⟩
      cases h2 : obj.intersect ops sray with
      | none =>
        simp only [shadow_loop, h2]
        exact ih
      | some sh2 =>
        by_cases h3 : sh2.distance > 1/1000
        · simp only [shadow_loop, h2]
          rw [if_pos h3]
        · simp only [shadow_loop, h2]
          rw [if_neg h3]
          exact ih

/-- Claim C3: in `trace_ray`, whenever some object of the list intersects
the shadow ray (origin `hit.point + normal * 1e-3`, direction toward the
light) at distance strictly greater than `1e-3`, the intensity after the
shadow loop is `(0,0,0)` and consequently `local_color` is exactly
`(0,0,0)`, whatever the base color of the hit object. -/
theorem shadow_zeroes_local_color (ops : FloatOps) (objects : List Intersectable)
    (ray : Ray) (hit : Intersection)
    (hhit : closest_hit ops objects ray = some hit)
    (hocc : ∃ obj ∈ objects, ∃ sh,
      obj.intersect ops (shadow_ray ops hit) = some sh ∧ sh.distance > 1/1000) :
    final_intensity ops objects hit = (0, 0, 0) ∧
    local_color ops objects hit = (0, 0, 0) := by
  have h1 : final_intensity ops objects hit = (0, 0, 0) :=
    shadow_loop_of_occluder ops (shadow_ray ops hit) (base_intensity ops hit) objects hocc
  refine ⟨h1, ?_⟩
  norm_num [local_color, h1, qclamp, to_u8]

/-- Witness for C3: the ground plane hit by a vertical ray, with a wall
standing between the hit point and the light. -/
theorem shadow_zeroes_local_color_witness :
    final_intensity opsLin [.plane wGround, .plane wWall] wGroundHit = (0, 0, 0) ∧
    local_color opsLin [.plane wGround, .plane wWall] wGroundHit = (0, 0, 0) :=
  shadow_zeroes_local_color opsLin [.plane wGround, .plane wWall] wRayDown wGroundHit
    eval_closest_ground_wall
    ⟨.plane wWall, by norm_num, wWallShadowHit, eval_wall_shadow,
      by norm_num [wWallShadowHit]⟩

/-- Claim C5: when the closest hit has reflectivity exactly `0`, `trace_ray`
returns `local_color` directly, with no recursive call, so its result is the
same at every depth at least 1. -/
theorem trace_ray_nonreflective (ops : FloatOps) (objects : List Intersectable)
    (ray : Ray) (hit : Intersection) (depth : ℕ)
    (hhit : closest_hit ops objects ray = some hit)
    (hr : hit.object.refl_of = 0) :
    trace_ray ops objects ray (depth + 1) = local_color ops objects hit ∧
    trace_ray ops objects ray (depth + 1) = trace_ray ops objects ray 1 := by
  have key : ∀ d : ℕ, trace_ray ops objects ray (d + 1) = local_color ops objects hit := by
    intro d
    simp only [trace_ray, hhit]
    rw [if_neg (by rw [hr]; exact lt_irrefl 0)]
  exact ⟨key depth, (key depth).trans (key 0).symm⟩

/-- Witness for C5: the non-reflective ground plane under a vertical ray,
evaluated at depth 5 versus depth 1. -/
theorem trace_ray_nonreflective_witness :
    trace_ray opsLin [.plane wGround] wRayDown 5 = local_color opsLin [.plane wGround] wGroundHit ∧
    trace_ray opsLin [.plane wGround] wRayDown 5 = trace_ray opsLin [.plane wGround] wRayDown 1 :=
  trace_ray_nonreflective opsLin [.plane wGround] wRayDown wGroundHit 4
    eval_closest_ground
    (by norm_num [Intersectable.refl_of, wGroundHit, wGround])

/-- Helper: the green channel of `local_color` is always `0`, because the
green component of the light color built inside `trace_ray` is `0`. -/
theorem local_color_green (ops : FloatOps) (objects : List Intersectable)
    (hit : Intersection) : (local_color ops objects hit).2.1 = 0 := by
  have hlc : qclamp light_color_v.2.1 0 1 = 0 := by
    norm_num [light_color_v, the_light, qclamp]
  show to_u8 (qclamp (qclamp (hit.object.get_color.2.1 / 255 *
      (final_intensity ops objects hit).2.1) 0 1) 0 1 *
      qclamp light_color_v.2.1 0 1 * 255) = 0
  rw [hlc, mul_zero, zero_mul]
  norm_num [to_u8]

/-- Claim C10: the green channel of `trace_ray` is `0` for every ray, object
list and depth: the light built inside the tracer has color
`(255, 0, 100)`, whose zero green factor wipes the green of every local
color, and the miss, depth-0 and blend cases preserve it. -/
theorem trace_ray_green_zero (ops : FloatOps) (objects : List Intersectable) :
    ∀ (depth : ℕ) (ray : Ray), (trace_ray ops objects ray depth).2.1 = 0 := by
  intro depth
  induction depth with
  | zero => intro ray; rfl
  | succ d ih =>
    intro ray
    cases hcl : closest_hit ops objects ray with
    | none => simp [trace_ray, hcl]
    | some hit =>
      simp only [trace_ray, hcl]
      by_cases hr : hit.object.refl_of > 0
      · rw [if_pos hr]
        have h1 := local_color_green ops objects hit
        have h2 := ih (reflected_ray ops ray hit)
        norm_num [blend, h1, h2, to_u8]
      · rw [if_neg hr]
        exact local_color_green ops objects hit

/-- Claim C4: when the closest hit has reflectivity strictly greater than
`0`, `trace_ray` computes the mirror direction `D - 2(D.N)N`, normalizes it,
casts a ray from `hit.point + normal * 1e-3`, recurses with depth lowered by
one, and returns per channel `local*(1-reflectivity) +
reflected*reflectivity` truncated (via the saturating `as u8` cast) to an
integer. -/
theorem trace_ray_reflective (ops : FloatOps) (objects : List Intersectable)
    (ray : Ray) (hit : Intersection) (depth : ℕ)
    (hhit : closest_hit ops objects ray = some hit)
    (hr : hit.object.refl_of > 0) :
    trace_ray ops objects ray (depth + 1) =
      (let rr : Ray :=
        { origin := hit.point.add (Vector3.smul (1/1000) hit.normal)
          direction := Vector3.normalize ops
            (ray.direction.sub
              (Vector3.smul (2 * ray.direction.dot hit.normal) hit.normal)) }
      let rc := trace_ray ops objects rr depth
      let lc := local_color ops objects hit
      let r := hit.object.refl_of
      (to_u8 ((lc.1 : ℚ) * (1 - r) + (rc.1 : ℚ) * r),
       to_u8 ((lc.2.1 : ℚ) * (1 - r) + (rc.2.1 : ℚ) * r),
       to_u8 ((lc.2.2 : ℚ) * (1 - r) + (rc.2.2 : ℚ) * r))) := by
  simp only [trace_ray, hhit]
  rw [if_pos hr]
  rfl

/-- Witness for C4: the half-reflective ground plane under a vertical ray,
at depth 1 (the recursive call runs at depth 0). -/
theorem trace_ray_reflective_witness :
    trace_ray opsLin [.plane wGroundR] wRayDown 1 =
      (let rr : Ray :=
        { origin := wGroundHitR.point.add (Vector3.smul (1/1000) wGroundHitR.normal)
          direction := Vector3.normalize opsLin
            (wRayDown.direction.sub
              (Vector3.smul (2 * wRayDown.direction.dot wGroundHitR.normal)
                wGroundHitR.normal)) }
      let rc := trace_ray opsLin [.plane wGroundR] rr 0
      let lc := local_color opsLin [.plane wGroundR] wGroundHitR
      let r := wGroundHitR.object.refl_of
      (to_u8 ((lc.1 : ℚ) * (1 - r) + (rc.1 : ℚ) * r),
       to_u8 ((lc.2.1 : ℚ) * (1 - r) + (rc.2.1 : ℚ) * r),
       to_u8 ((lc.2.2 : ℚ) * (1 - r) + (rc.2.2 : ℚ) * r))) :=
  trace_ray_reflective opsLin [.plane wGroundR] wRayDown wGroundHitR 0
    eval_closest_groundR
    (by norm_num [Intersectable.refl_of, wGroundHitR, wGroundR])

/-- Claim C9: `trace_ray` terminates within a number of nested activations
bounded by the caller-supplied depth: the fuel-instrumented variant (which
returns `none` when the allotted activations run out) returns the value of
`trace_ray` whenever the fuel exceeds the depth. -/
theorem trace_ray_terminates (ops : FloatOps) (objects : List Intersectable) :
    ∀ (depth : ℕ) (ray : Ray) (fuel : ℕ), depth < fuel →
      trace_ray_fuel ops objects fuel ray depth = some (trace_ray ops objects ray depth) := by
  intro depth
  induction depth with
  | zero =>
    intro ray fuel hf
    match fuel, hf with
    | fuel + 1, _ => simp [trace_ray_fuel, trace_ray]
  | succ d ih =>
    intro ray fuel hf
    match fuel, hf with
    | fuel + 1, hf =>
      have hd : d < fuel := Nat.lt_of_succ_lt_succ hf
      simp only [trace_ray_fuel, Nat.succ_ne_zero, if_false, Nat.succ_sub_one]
      cases hcl : closest_hit ops objects ray with
      | none => simp only [trace_ray, hcl]
      | some hit =>
        by_cases hr : hit.object.refl_of > 0
        · simp only [trace_ray, hcl]
          rw [if_pos hr, if_pos hr, ih (reflected_ray ops ray hit) fuel hd]
        · simp only [trace_ray, hcl]
          rw [if_neg hr, if_neg hr]

/-- Witness for C9: 4 units of fuel suffice for the default depth 3 on a
concrete scene. -/
theorem trace_ray_terminates_witness :
    trace_ray_fuel opsLin [.plane wGround] 4 wRayDown 3 =
      some (trace_ray opsLin [.plane wGround] wRayDown 3) :=
  trace_ray_terminates opsLin [.plane wGround] 3 wRayDown 4 (by norm_num)

/-- Helper: length of a rectangular flatMap over ranges. -/
theorem flatMap_range_length {α : Type} (h w : ℕ) (f : ℕ → ℕ → α) :
    ((List.range h).flatMap fun j => (List.range w).map (f j)).length = h * w := by
  induction h with
  | zero => simp
  | succ n ih =>
    rw [List.range_succ, List.flatMap_append, List.length_append, ih]
    simp [List.flatMap_cons, List.flatMap_nil, Nat.succ_mul]

/-- Helper: raster-order indexing of a rectangular flatMap over ranges. -/
theorem flatMap_range_get {α : Type} (w : ℕ) (f : ℕ → ℕ → α) :
    ∀ h j i : ℕ, j < h → i < w →
      ((List.range h).flatMap fun j => (List.range w).map (f j))[j * w + i]? =
        some (f j i) := by
  intro h
  induction h with
  | zero => intro j i hj _; exact absurd hj (Nat.not_lt_zero j)
  | succ n ih =>
    intro j i hj hi
    rw [List.range_succ, List.flatMap_append]
    have hlen : ((List.range n).flatMap fun j => (List.range w).map (f j)).length = n * w :=
      flatMap_range_length n w f
    rcases Nat.lt_or_ge j n with hj2 | hj2
    · have hlt : j * w + i < n * w := by
        have h1 : j * w + i < (j + 1) * w := by
          rw [Nat.succ_mul]
          exact Nat.add_lt_add_left hi _
        exact Nat.lt_of_lt_of_le h1 (Nat.mul_le_mul_right w hj2)
      rw [List.getElem?_append, hlen, if_pos hlt]
      exact ih j i hj2 hi
    · have hjn : j = n := Nat.le_antisymm (Nat.lt_succ_iff.mp hj) hj2
      subst hjn
      rw [List.getElem?_append_right (by rw [hlen]; exact Nat.le_add_right _ i), hlen,
        Nat.add_sub_cancel_left]
      simp [List.flatMap_cons, List.flatMap_nil, List.getElem?_map, List.getElem?_range hi]

/-- Relation of C8 (amended): for every camera, `generate_rays` yields
exactly `width * height` rays, in raster order (row-major: entry
`j*width + i` is the ray of pixel `(i, j)`), each with origin the camera
origin and direction the normalized vector from the origin toward
`origin + forward*distance + right*screen_x + up*screen_y` at the pixel
center `(i+0.5, j+0.5)`; when moreover `width ≥ 2`, `height ≥ 2` and the
image-plane height `2*tan(fov_rad/2)*distance` is positive, the screen
offsets of pixel `(0,0)` and of pixel `(width-1, height-1)` have opposite
signs in x and in y.  (At `width = height = 1` both offsets are zero, which
is why the sign clause needs dimensions at least 2.) -/
theorem generate_rays_spec (ops : FloatOps) (c : Camera) :
    (c.generate_rays ops).length = c.width * c.height ∧
    (∀ j i : ℕ, j < c.height → i < c.width →
      (c.generate_rays ops)[j * c.width + i]? = some
        { origin := c.origin
          direction := Vector3.normalize ops
            ((((c.origin.add (Vector3.smul c.distance c.forward)).add
                (Vector3.smul (c.pixel_screen_x ops i) c.right)).add
                (Vector3.smul (c.pixel_screen_y ops j) c.up)).sub c.origin) }) ∧
    (2 ≤ c.width → 2 ≤ c.height → 0 < c.image_plane_height ops →
      c.pixel_screen_x ops 0 < 0 ∧ 0 < c.pixel_screen_x ops (c.width - 1) ∧
      0 < c.pixel_screen_y ops 0 ∧ c.pixel_screen_y ops (c.height - 1) < 0) := by
  refine ⟨?_, ?_, ?_⟩
  · rw [Camera.generate_rays, flatMap_range_length, Nat.mul_comm]
  · intro j i hj hi
    rw [Camera.generate_rays, flatMap_range_get c.width _ c.height j i hj hi]
    rfl
  · intro hw hh hp
    have hW : (2:ℚ) ≤ (c.width : ℚ) := by exact_mod_cast hw
    have hH : (2:ℚ) ≤ (c.height : ℚ) := by exact_mod_cast hh
    have hW0 : (0:ℚ) < (c.width : ℚ) := by linarith
    have hH0 : (0:ℚ) < (c.height : ℚ) := by linarith
    have hipw : 0 < c.image_plane_width ops := by
      rw [Camera.image_plane_width, Camera.aspect]
      exact mul_pos hp (div_pos hW0 hH0)
    have hcw : ((c.width - 1 : ℕ) : ℚ) = (c.width : ℚ) - 1 := by
      rw [Nat.cast_sub (by omega : 1 ≤ c.width), Nat.cast_one]
    have hch : ((c.height - 1 : ℕ) : ℚ) = (c.height : ℚ) - 1 := by
      rw [Nat.cast_sub (by omega : 1 ≤ c.height), Nat.cast_one]
    refine ⟨?_, ?_, ?_, ?_⟩
    · rw [Camera.pixel_screen_x]
      have h1 : (((0:ℕ):ℚ) + 1/2) / (c.width : ℚ) < 1/2 := by
        rw [div_lt_iff₀ hW0]
        push_cast
        nlinarith
      exact div_neg_of_neg_of_pos
        (mul_neg_of_neg_of_pos (by linarith) hipw) (by norm_num)
    · rw [Camera.pixel_screen_x, hcw]
      have h1 : (1:ℚ)/2 < ((c.width : ℚ) - 1 + 1/2) / (c.width : ℚ) := by
        rw [lt_div_iff₀ hW0]
        nlinarith
      exact div_pos (mul_pos (by linarith) hipw) (by norm_num)
    · rw [Camera.pixel_screen_y]
      have h1 : (((0:ℕ):ℚ) + 1/2) / (c.height : ℚ) < 1/2 := by
        rw [div_lt_iff₀ hH0]
        push_cast
        nlinarith
      exact div_pos (mul_pos (by linarith) hp) (by norm_num)
    · rw [Camera.pixel_screen_y, hch]
      have h1 : (1:ℚ)/2 < ((c.height : ℚ) - 1 + 1/2) / (c.height : ℚ) := by
        rw [lt_div_iff₀ hH0]
        nlinarith
      exact div_neg_of_neg_of_pos
        (mul_neg_of_neg_of_pos (by linarith) hp) (by norm_num)

/-- The camera `main.rs` constructs (800 by 600, fov 90, distance 1), with
the orthonormal basis its inputs produce. -/
def camMain : Camera :=
  { origin := ⟨0, 0, 5⟩, forward := ⟨0, 0, -1⟩, right := ⟨1, 0, 0⟩, up := ⟨0, 1, 0⟩,
    distance := 1, height := 600, width := 800, fov := 90 }

/-- Witness for C8 (amended): on the 800-by-600 camera of `main.rs` the
dimension and positivity hypotheses hold, giving the ray count, the raster
position of pixel `(0,0)`, and the four sign facts. -/
theorem generate_rays_spec_witness :
    (camMain.generate_rays opsLin).length = 800 * 600 ∧
    (camMain.generate_rays opsLin)[(0:ℕ)]? = some (camMain.pixel_ray opsLin 0 0) ∧
    camMain.pixel_screen_x opsLin 0 < 0 ∧
    0 < camMain.pixel_screen_x opsLin (camMain.width - 1) ∧
    0 < camMain.pixel_screen_y opsLin 0 ∧
    camMain.pixel_screen_y opsLin (camMain.height - 1) < 0 := by
  obtain ⟨h1, h2, h3⟩ := generate_rays_spec opsLin camMain
  have h4 := h3 (by norm_num [camMain]) (by norm_num [camMain])
    (by norm_num [Camera.image_plane_height, opsLin, camMain])
  have h5 := h2 0 0 (by norm_num [camMain]) (by norm_num [camMain])
  refine ⟨by rw [h1]; norm_num [camMain], ?_, h4.1, h4.2.1, h4.2.2.1, h4.2.2.2⟩
  simpa using h5

/-- A 1-by-1 camera (`width = height = 1`), otherwise shaped like the one
`main.rs` constructs. -/
def cam11 : Camera :=
  { origin := ⟨0, 0, 5⟩, forward := ⟨0, 0, -1⟩, right := ⟨1, 0, 0⟩, up := ⟨0, 1, 0⟩,
    distance := 1, height := 1, width := 1, fov := 90 }

/-- Counterexample to C8 as stated: on a camera with `width = height = 1`
(which satisfies `width ≥ 1` and `height ≥ 1`), the screen offsets of pixel
`(0,0)` and of pixel `(width-1, height-1)` are all exactly `0`, so they do
not have opposite signs in x or in y. -/
theorem generate_rays_sign_counterexample :
    cam11.width = 1 ∧ cam11.height = 1 ∧
    cam11.pixel_screen_x opsLin 0 = 0 ∧
    cam11.pixel_screen_x opsLin (cam11.width - 1) = 0 ∧
    cam11.pixel_screen_y opsLin 0 = 0 ∧
    cam11.pixel_screen_y opsLin (cam11.height - 1) = 0 ∧
    ¬(cam11.pixel_screen_x opsLin 0 * cam11.pixel_screen_x opsLin (cam11.width - 1) < 0) ∧
    ¬(cam11.pixel_screen_y opsLin 0 * cam11.pixel_screen_y opsLin (cam11.height - 1) < 0) := by
  norm_num [Camera.pixel_screen_x, Camera.pixel_screen_y, Camera.image_plane_width,
    Camera.image_plane_height, Camera.aspect, opsLin, cam11]

/-- Relation of C7 (the code lacks the behaviour the claim demands):
`Camera::new` is infallible (it returns `Self`, with no error path), and on
an `up_hint` parallel to the look direction it silently builds a degenerate
basis: with the real-sqrt facts `sqrt 1 = 1` and `sqrt 0 = 0`, the
constructed `right` and `up` are the zero vector (the exact-arithmetic
counterpart of the NaN vectors `f32` produces), not an error. -/
theorem camera_new_degenerate_no_error (ops : FloatOps)
    (h1 : ops.sqrt 1 = 1) (h0 : ops.sqrt 0 = 0) :
    Camera.new ops ⟨0, 0, 0⟩ ⟨0, 0, -1⟩ ⟨0, 0, -1⟩ 1 600 800 90 =
      { origin := ⟨0, 0, 0⟩, forward := ⟨0, 0, -1⟩, right := ⟨0, 0, 0⟩,
        up := ⟨0, 0, 0⟩, distance := 1, height := 600, width := 800, fov := 90 } := by
  norm_num [Camera.new, Vector3.normalize, Vector3.cross, Vector3.sub, Vector3.dot,
    h1, h0]

/-- Witness for C7: the hypotheses on the abstract square root hold for the
sample instantiation. -/
theorem camera_new_degenerate_no_error_witness :
    opsLin.sqrt 1 = 1 ∧ opsLin.sqrt 0 = 0 ∧
    Camera.new opsLin ⟨0, 0, 0⟩ ⟨0, 0, -1⟩ ⟨0, 0, -1⟩ 1 600 800 90 =
      { origin := ⟨0, 0, 0⟩, forward := ⟨0, 0, -1⟩, right := ⟨0, 0, 0⟩,
        up := ⟨0, 0, 0⟩, distance := 1, height := 600, width := 800, fov := 90 } :=
  ⟨rfl, rfl, camera_new_degenerate_no_error opsLin rfl rfl⟩

end Raytracer
